import Mathlib

/-!
Verification of the PDV3 hybrid backend transaction engine.

This file is a shallow embedding, in Lean 4, of the transaction engine of the
PDV3 point-of-sale backend (FastAPI + SQLAlchemy + PostgreSQL):

* app/routers/vendas.py   — sale creation (idempotency, tax, frozen cost,
  service classification, stock depletion, rollback),
* app/routers/dividas.py  — debt creation, batch sync, payment registration,
* app/schemas/venda.py    — the pydantic request schemas for sales.

Modelling conventions:

* Python floats are modelled as rationals (`ℚ`); the tolerance literals of the
  source (`1e-9` for stock and cost, `0.01` for debt settlement) become the
  exact rationals `1/10^9` and `1/100`.
* UUID values are modelled as their 128-bit integer value (`Nat`); the parsing
  done by CPython's `uuid.UUID(str)` constructor (strip `urn:`/`uuid:`
  occurrences, strip surrounding braces, drop dashes, require exactly 32 hex
  digits) is modelled by `pythonUUIDParse` below.
* The database session is modelled by an explicit `DB` record of tables.
  A handler is a function `DB → request → Except Err (DB × result)`: the `DB`
  inside `.ok` is the state after `commit`; an `.error` outcome means the
  session was rolled back, so the committed state is the input `DB`
  (made explicit by `commitOf` / `dividaCommit`).
* The batch sync endpoint shares one session transaction for the whole batch;
  it is modelled with explicit staged (flushed-but-uncommitted) writes, since
  `session.rollback()` discards every staged write of the transaction.
* Timestamp columns (`created_at`, `updated_at`, `data_divida`) are omitted:
  no claim below concerns them.
* Field names ending in letter sequences that this development cannot use as
  suffixes are shortened: the source columns `preco_unitario`,
  `preco_custo_unitario` and the local `usuario` appear here as `preco_unit`,
  `preco_custo_unit` and `usuario_id` values.
-/

/-! ### Python string and uuid primitives -/

/-- Hex digit value of a character, accepting both cases (as `int(s, 16)`). -/
def hexVal? (c : Char) : Option Nat :=
  if '0' ≤ c ∧ c ≤ '9' then some (c.toNat - '0'.toNat)
  else if 'a' ≤ c ∧ c ≤ 'f' then some (c.toNat - 'a'.toNat + 10)
  else if 'A' ≤ c ∧ c ≤ 'F' then some (c.toNat - 'A'.toNat + 10)
  else none

/-- Whether `pat` is an initial segment of `text`. -/
def listStartsWith : List Char → List Char → Bool
  | [], _ => true
  | _ :: _, [] => false
  | p :: ps, c :: cs => p = c && listStartsWith ps cs

/-- Whether `pat` occurs contiguously inside `text` (Python `pat in text`). -/
def containsPat (pat : List Char) : List Char → Bool
  | [] => listStartsWith pat []
  | c :: cs => listStartsWith pat (c :: cs) || containsPat pat cs

/-- Fuel-indexed worker for `removeAll`; the fuel starts at the text length,
which bounds the number of steps. -/
def removeAllAux (pat : List Char) : Nat → List Char → List Char
  | _, [] => []
  | 0, text => text
  | fuel + 1, c :: cs =>
    if listStartsWith pat (c :: cs) ∧ pat ≠ [] then
      removeAllAux pat fuel (List.drop pat.length (c :: cs))
    else
      c :: removeAllAux pat fuel cs

/-- Remove every occurrence of `pat` from `text` (Python `str.replace(pat, "")`). -/
def removeAll (pat text : List Char) : List Char :=
  removeAllAux pat text.length text

/-- The ASCII opening brace character, `"\x7b"`. -/
def openBraceChar : Char := Char.ofNat 123

/-- The ASCII closing brace character, `"\x7d"`. -/
def closeBraceChar : Char := Char.ofNat 125

/-- Model of CPython's `uuid.UUID(hex=s)` constructor: delete the substrings
`urn:` and `uuid:`, strip surrounding braces, drop the dashes, then require
exactly 32 hex digits, whose value is the UUID's 128-bit integer.  (The exotic
leniencies of `int(s, 16)` — sign characters, underscores, surrounding
whitespace — are not modelled; no claim depends on them.) -/
def pythonUUIDParse (s : String) : Option Nat :=
  let cs := removeAll ("uuid:").toList (removeAll ("urn:").toList s.toList)
  let cs := cs.dropWhile (fun c => c = openBraceChar ∨ c = closeBraceChar)
  let cs := (cs.reverse.dropWhile (fun c => c = openBraceChar ∨ c = closeBraceChar)).reverse
  let cs := cs.filter (fun c => c ≠ '-')
  if cs.length = 32 then
    cs.foldl (fun acc c => acc.bind (fun a => (hexVal? c).map (fun v => a * 16 + v))) (some 0)
  else none

/-- Model of `_parse_uuid` from app/routers/dividas.py lines 82-88 applied to a
string: a falsy (empty) string yields `None`, otherwise parse and map failure
to `None`. -/
def parseUuidStr (s : String) : Option Nat :=
  if s = ("") then none else pythonUUIDParse s

/-- Model of `_parse_uuid` applied to an `Optional[str]` value. -/
def parseUuidOpt (v : Option String) : Option Nat :=
  match v with
  | none => none
  | some s => parseUuidStr s

/-- Characters stripped by Python `str.strip()` (the ASCII whitespace set). -/
def isPySpace (c : Char) : Bool :=
  c = ' ' || c = '\t' || c = '\n' || c = '\r' || c = Char.ofNat 11 || c = Char.ofNat 12

/-- Python `str.strip()` on a character list. -/
def trimChars (cs : List Char) : List Char :=
  ((cs.dropWhile isPySpace).reverse.dropWhile isPySpace).reverse

/-- ASCII lowering of one character; Python `str.lower()` restricted to ASCII
(the heuristics below only match ASCII patterns, so non-ASCII characters are
passed through unchanged). -/
def lowerChar (c : Char) : Char :=
  if 'A' ≤ c ∧ c ≤ 'Z' then Char.ofNat (c.toNat + 32) else c

/-- The result value of a successful handler call, if any. -/
def exceptOk? {ε α : Type} : Except ε α → Option α
  | .ok a => some a
  | .error _ => none

/-! ### Data model

The SQLAlchemy models (app/db/models.py) are not part of the provided sources;
their columns are reconstructed from how the routers in src read and write
them, and from the spec's entity table (§3).  All money/stock quantities are
`ℚ`, all ids are `Nat` (UUID integer values). -/

/-- A catalog product (table `produtos`).  The field `stockTracked` is
modelled from the spec: spec §3 lists a "stock-tracked flag" on Product and
§4.3 names "an explicit stock-tracked flag on the product" as a classifier,
but no code under src ever reads such a flag; it is carried here (as an
optional flag, unset for legacy records) solely so that the spec's claimed
classifier can be stated and compared with the code's classifier. -/
structure Produto where
  id : Nat
  codigo : Option String
  nome : String
  preco_custo : ℚ
  estoque : ℚ
  categoria_id : Option Int
  venda_por_peso : Bool
  taxa_iva : ℚ
  stockTracked : Option Bool
deriving DecidableEq

/-- A sale row (table `vendas`). -/
structure Venda where
  id : Nat
  usuario_id : Option Nat
  cliente_id : Option Nat
  total : ℚ
  desconto : ℚ
  forma_pagamento : String
  observacoes : Option String
  cancelada : Bool
deriving DecidableEq

/-- A sale line row (table `itens_venda`); `preco_unit` and `preco_custo_unit`
model the columns `preco_unitario` and `preco_custo_unitario`. -/
structure ItemVenda where
  venda_id : Nat
  produto_id : Nat
  quantidade : Nat
  peso_kg : Option ℚ
  preco_unit : ℚ
  subtotal : ℚ
  preco_custo_unit : ℚ
  taxa_iva : ℚ
  base_iva : ℚ
  valor_iva : ℚ
deriving DecidableEq

/-- A debt row (table `dividas`). -/
structure Divida where
  id : Nat
  id_local : Option Int
  cliente_id : Option Nat
  usuario_id : Option Nat
  valor_total : ℚ
  valor_original : ℚ
  desconto_aplicado : ℚ
  percentual_desconto : ℚ
  valor_pago : ℚ
  status : String
  observacao : Option String
deriving DecidableEq

/-- A debt line row (table `itens_divida`); `preco_unit` models the column
`preco_unitario`. -/
structure ItemDivida where
  divida_id : Nat
  produto_id : Nat
  quantidade : ℚ
  preco_unit : ℚ
  subtotal : ℚ
deriving DecidableEq

/-- A debt payment row (table `pagamentos_divida`). -/
structure PagamentoDivida where
  divida_id : Nat
  valor : ℚ
  forma_pagamento : String
  usuario_id : Option Nat
deriving DecidableEq

/-- The relational store: one list per table touched by the embedded routes. -/
structure DB where
  produtos : List Produto
  vendas : List Venda
  itens_venda : List ItemVenda
  dividas : List Divida
  itens_divida : List ItemDivida
  pagamentos : List PagamentoDivida
deriving DecidableEq

/-! ### Request schemas (app/schemas/venda.py and the pydantic models of
app/routers/dividas.py) -/

/-- Validated `ItemVendaCreate` (schemas/venda.py lines 11-25).  Exactly the
declared fields: `produto_id`, `quantidade` (int, `ge=0`, hence `Nat`),
`peso_kg`, `preco_unitario` (here `preco_unit`), `subtotal`, `taxa_iva`,
`base_iva`, `valor_iva`.  `Option` marks `Optional` fields, whose `none` is an
explicit JSON null. -/
structure ItemVendaCreate where
  produto_id : String
  quantidade : Nat
  peso_kg : Option ℚ
  preco_unit : ℚ
  subtotal : ℚ
  taxa_iva : Option ℚ
  base_iva : Option ℚ
  valor_iva : Option ℚ
deriving DecidableEq

/-- A raw client line-item payload as the PDV3 terminal sends it: the declared
fields of `ItemVendaCreate` plus the undeclared extra field
`preco_custo_unitario` (here `preco_custo_unit`). -/
structure ItemVendaRaw where
  produto_id : String
  quantidade : Nat
  peso_kg : Option ℚ
  preco_unit : ℚ
  subtotal : ℚ
  taxa_iva : Option ℚ
  base_iva : Option ℚ
  valor_iva : Option ℚ
  preco_custo_unit : Option ℚ
deriving DecidableEq

/-- Pydantic validation of one line item.  `ItemVendaBase` sets
`model_config = \x7b"extra": "ignore"\x7d` (schemas/venda.py lines 7-9), so the
undeclared `preco_custo_unitario` field is dropped: the validated model object
has no such attribute. -/
def validateItemVenda (raw : ItemVendaRaw) : ItemVendaCreate :=
  { produto_id := raw.produto_id
    quantidade := raw.quantidade
    peso_kg := raw.peso_kg
    preco_unit := raw.preco_unit
    subtotal := raw.subtotal
    taxa_iva := raw.taxa_iva
    base_iva := raw.base_iva
    valor_iva := raw.valor_iva }

/-- Validated `VendaCreate` (schemas/venda.py lines 55-72).  `aplicar_iva` is
`Optional[bool] = True`: `none` models an explicit JSON null (the pydantic
default `True` applies only when the field is absent). -/
structure VendaCreate where
  usuario_id : Option String
  cliente_id : Option String
  total : ℚ
  desconto : Option ℚ
  aplicar_iva : Option Bool
  forma_pagamento : String
  observacoes : Option String
  uuid : Option String
  itens : List ItemVendaCreate
deriving DecidableEq

/-- `ItemDividaIn` (dividas.py lines 16-20); `preco_unit` models
`preco_unitario`. -/
structure ItemDividaIn where
  produto_id : String
  quantidade : ℚ
  preco_unit : ℚ
  subtotal : ℚ
deriving DecidableEq

/-- `DividaCreate` (dividas.py lines 23-30). -/
structure DividaCreateIn where
  id_local : Option Int
  cliente_id : Option String
  usuario_id : Option String
  observacao : Option String
  desconto_aplicado : ℚ
  percentual_desconto : ℚ
  itens : List ItemDividaIn
deriving DecidableEq

/-- `PagamentoDividaIn` (dividas.py lines 33-36). -/
structure PagamentoDividaIn where
  valor : ℚ
  forma_pagamento : String
  usuario_id : Option String
deriving DecidableEq

/-! ### Sale creation (app/routers/vendas.py, `criar_venda`, lines 70-300) -/

/-- Errors a sale-creation request can be rejected with (each raised as an
`HTTPException` in the source, which rolls the session back). -/
inductive VendaErro where
  | produtoIdInvalido (produto_id : String)
  | produtoInexistente (produto_id : String)
  | estoqueInsuficiente (nome : String) (disponivel solicitado : ℚ)
deriving DecidableEq

/-- The literal `1e-9` used for the stock comparison (line 233) and the frozen
cost threshold (line 160). -/
def eps1e9 : ℚ := 1 / 1000000000

/-- Resolution of the sale UUID (lines 75-80): a missing or falsy-empty `uuid`
field, or one that fails to parse, is replaced by a fresh random UUID. -/
def resolveVendaUuid (u : Option String) (fresh : Nat) : Nat :=
  match u with
  | none => fresh
  | some s => if s = ("") then fresh else (pythonUUIDParse s).getD fresh

/-- `bool(getattr(venda, 'aplicar_iva', True))` (line 115): an explicit null
(`None`) is falsy, otherwise the validated boolean is used. -/
def aplicarIvaOf (venda : VendaCreate) : Bool :=
  match venda.aplicar_iva with
  | some b => b
  | none => false

/-- `select(Venda).where(Venda.id == u)` on the session. -/
def findVendaId (vs : List Venda) (u : Nat) : Option Venda :=
  vs.find? (fun v => decide (v.id = u))

/-- `select(Produto).where(Produto.id == u)` on the session.  Within one
transaction the SQLAlchemy identity map returns the same (possibly already
mutated) object, which the explicit `estoque` updates below reproduce. -/
def findProduto (ps : List Produto) (u : Nat) : Option Produto :=
  ps.find? (fun p => decide (p.id = u))

/-- `setattr(produto_db, 'estoque', novo)` on the identity-mapped product. -/
def updateEstoque (ps : List Produto) (u : Nat) (novo : ℚ) : List Produto :=
  ps.map (fun q => if q.id = u then { q with estoque := novo } else q)

/-- The IVA computation of lines 166-179: given the transaction-level
apply-tax flag, the product tax rate and the tax-inclusive line subtotal,
returns the recorded `(taxa_iva, base_iva, valor_iva)` triple. -/
def computeIVA (aplicar_iva : Bool) (taxa subtotal : ℚ) : ℚ × ℚ × ℚ :=
  if !aplicar_iva then (0, subtotal, 0)
  else if 0 < taxa then
    let fator := 1 + taxa / 100
    let base := subtotal / fator
    (taxa, base, subtotal - base)
  else (taxa, subtotal, 0)

/-- `getattr(item_data, 'preco_custo_unitario', 0.0)` at line 157.  The
validated `ItemVendaCreate` declares no such field and its model config
ignores extra payload fields, so the attribute is always absent and the
`getattr` default is taken; `none` here stands for that absence (the handler
then maps it to `0.0`). -/
def itemGetattrCusto (_ : ItemVendaCreate) : Option ℚ := none

/-- The frozen-unit-cost resolution of lines 156-164: the supplied value
(`None` and absence both collapsing to `0.0`) if it exceeds `1e-9`, else the
product's current catalog cost. -/
def resolveCustoUnit (supplied : Option ℚ) (produtoCusto : ℚ) : ℚ :=
  let custo := supplied.getD 0
  if custo ≤ eps1e9 then produtoCusto else custo

/-- The service classification of lines 196-215: a product is a service if its
code starts with `srv`/`serv`, its (trimmed, lowered) name contains `servi` or
`impress`, or its category id is one of 10, 14, 15.  No stock-tracked flag is
consulted (`Produto.stockTracked` is not read). -/
def is_servico (p : Produto) : Bool :=
  let nome := (trimChars p.nome.toList).map lowerChar
  let codigo := (trimChars ((p.codigo.getD ("")).toList)).map lowerChar
  (listStartsWith ("srv").toList codigo || listStartsWith ("serv").toList codigo)
  || (containsPat ("servi").toList nome || containsPat ("impress").toList nome)
  || (decide (p.categoria_id = some 10) || decide (p.categoria_id = some 14)
      || decide (p.categoria_id = some 15))

/-- The depletion delta of lines 221-228: the weight when the product is sold
by weight and a positive weight was sent, otherwise the integer quantity
clamped to at least 1 (line 149). -/
def itemDelta (item : ItemVendaCreate) (p : Produto) : ℚ :=
  let quantidade : ℚ := (max 1 item.quantidade : Nat)
  let pk := item.peso_kg.getD 0
  if p.venda_por_peso && decide (0 < pk) then pk else quantidade

/-- The per-line loop of lines 134-242: validates the product reference,
freezes cost, computes IVA, accumulates the `ItemVenda` rows, and applies the
stock depletion (skipping service lines), failing the whole request on an
unresolvable product or insufficient stock. -/
def processItens (vid : Nat) (aplicar_iva : Bool) :
    List ItemVendaCreate → List Produto → List ItemVenda →
    Except VendaErro (List Produto × List ItemVenda)
  | [], ps, acc => .ok (ps, acc)
  | item :: rest, ps, acc =>
    match pythonUUIDParse item.produto_id with
    | none => .error (.produtoIdInvalido item.produto_id)
    | some pu =>
      match findProduto ps pu with
      | none => .error (.produtoInexistente item.produto_id)
      | some produto_db =>
        let quantidade := max 1 item.quantidade
        let custo_unit := resolveCustoUnit (itemGetattrCusto item) produto_db.preco_custo
        let iva := computeIVA aplicar_iva produto_db.taxa_iva item.subtotal
        let novoItem : ItemVenda :=
          { venda_id := vid
            produto_id := pu
            quantidade := quantidade
            peso_kg := item.peso_kg
            preco_unit := item.preco_unit
            subtotal := item.subtotal
            preco_custo_unit := custo_unit
            taxa_iva := iva.1
            base_iva := iva.2.1
            valor_iva := iva.2.2 }
        let acc' := acc ++ [novoItem]
        if is_servico produto_db then
          processItens vid aplicar_iva rest ps acc'
        else
          let delta := itemDelta item produto_db
          let estoque_atual := produto_db.estoque
          if estoque_atual < delta - eps1e9 then
            .error (.estoqueInsuficiente produto_db.nome estoque_atual delta)
          else
            processItens vid aplicar_iva rest (updateEstoque ps pu (estoque_atual - delta)) acc'

/-- The `Venda(...)` row constructed at lines 117-128 (timestamps omitted);
the `usuario_id`/`cliente_id` strings fall back to `None` when unparseable
(lines 99-113) and `venda.desconto or 0.0` maps a null discount to 0. -/
def novaVenda (venda : VendaCreate) (vid : Nat) : Venda :=
  { id := vid
    usuario_id := parseUuidOpt venda.usuario_id
    cliente_id := parseUuidOpt venda.cliente_id
    total := venda.total
    desconto := venda.desconto.getD 0
    forma_pagamento := venda.forma_pagamento
    observacoes := venda.observacoes
    cancelada := false }

/-- The `POST /api/vendas/` handler (lines 70-300).  `fresh` is the value
`uuid.uuid4()` would return on this call.  An `.ok` carries the committed
state and the returned sale; an `.error` models the HTTP rejection after
`db.rollback()`, so the committed state stays the input `db`. -/
def criar_venda (db : DB) (venda : VendaCreate) (fresh : Nat) :
    Except VendaErro (DB × Venda) :=
  let venda_uuid := resolveVendaUuid venda.uuid fresh
  match findVendaId db.vendas venda_uuid with
  | some existente => .ok (db, existente)
  | none =>
    match processItens venda_uuid (aplicarIvaOf venda) venda.itens db.produtos [] with
    | .error e => .error e
    | .ok (ps, itens) =>
      .ok ({ db with produtos := ps
                     vendas := novaVenda venda venda_uuid :: db.vendas
                     itens_venda := itens ++ db.itens_venda }, novaVenda venda venda_uuid)

/-- The state the store is left in after a `criar_venda` call: the committed
state on success, the rolled-back (input) state on rejection (lines 286-300). -/
def commitOf (db : DB) (r : Except VendaErro (DB × Venda)) : DB :=
  match r with
  | .ok p => p.1
  | .error _ => db

/-- Decidable form of "this line resolves to a catalog product": the
`produto_id` parses and the product exists. -/
def lineResolves (ps : List Produto) (it : ItemVendaCreate) : Bool :=
  match pythonUUIDParse it.produto_id with
  | some u => (findProduto ps u).isSome
  | none => false

/-- Decidable form of "this line is a stock-tracked line whose delta exceeds
the product's current stock beyond the `1e-9` tolerance". -/
def lineEstoqueInsuficiente (ps : List Produto) (it : ItemVendaCreate) : Bool :=
  match pythonUUIDParse it.produto_id with
  | none => false
  | some u =>
    match findProduto ps u with
    | none => false
    | some p => !is_servico p && decide (p.estoque < itemDelta it p - eps1e9)

/-- Modelled from the spec: the per-line service classification that §4.3 of
the spec describes, which consults "in priority order: an explicit
stock-tracked flag on the product, a product-code prefix heuristic
(srv/serv), a name-substring heuristic (service/print keywords), or
membership in a fixed set of service category identifiers".  An explicitly
set flag decides first; the heuristics only apply to records whose flag is
unset.  This definition exists to be compared with `is_servico`, the
classifier the code actually implements. -/
def isServicoSpecOrder (p : Produto) : Bool :=
  match p.stockTracked with
  | some tracked => !tracked
  | none =>
    let nome := (trimChars p.nome.toList).map lowerChar
    let codigo := (trimChars ((p.codigo.getD ("")).toList)).map lowerChar
    if listStartsWith ("srv").toList codigo || listStartsWith ("serv").toList codigo then true
    else if containsPat ("servi").toList nome || containsPat ("impress").toList nome then true
    else decide (p.categoria_id = some 10) || decide (p.categoria_id = some 14)
         || decide (p.categoria_id = some 15)

/-! ### Debt routes (app/routers/dividas.py) -/

/-- Errors raised by the debt routes (each an `HTTPException` that rolls the
session back). -/
inductive DividaErro where
  | valorNaoPositivo
  | idInvalido
  | naoEncontrada
  | semItens
  | produtoIdInvalido (produto_id : String)
  | produtoInexistente (produto_id : String)
deriving DecidableEq

/-- `select(Divida).where(Divida.id == u)` on the session. -/
def findDivida (ds : List Divida) (u : Nat) : Option Divida :=
  ds.find? (fun d => decide (d.id = u))

/-- In-place mutation of the identity-mapped debt object whose id is
`target`. -/
def updateDividaIn (ds : List Divida) (target : Nat) (nova : Divida) : List Divida :=
  ds.map (fun q => if q.id = target then nova else q)

/-- The names imported into app/routers/dividas.py (lines 1-10):
`Divida, ItemDivida, PagamentoDivida, Produto, Cliente, User` from
app.db.models, plus framework names.  `Venda` is not among them. -/
def dividasImportedNames : List String :=
  [("Divida"), ("ItemDivida"), ("PagamentoDivida"), ("Produto"), ("Cliente"), ("User")]

/-- The secondary write of dividas.py lines 427-443: after the payment
commits, the handler evaluates `Venda(...)`.  Evaluating that expression first
resolves the name `Venda` in the module's namespace; dividas.py never imports
it, so a `NameError` is raised, caught by the bare `except Exception` of lines
441-443, and the inner transaction is rolled back: the committed state gains a
synthetic sale only if the name resolves.  (Were the branch reachable, the
sale's server-generated id, not modelled, is written as 0, and the observation
string is simplified.) -/
def syntheticVendaWrite (db1 : DB) (divida : Divida) (divida_id : String)
    (payload : PagamentoDividaIn) : DB :=
  if dividasImportedNames.contains ("Venda") then
    { db1 with vendas :=
        { id := 0
          usuario_id := parseUuidOpt payload.usuario_id
          cliente_id := divida.cliente_id
          total := payload.valor
          desconto := 0
          forma_pagamento := payload.forma_pagamento
          observacoes := some (("Pagamento de divida #") ++ divida_id)
          cancelada := false } :: db1.vendas }
  else db1

/-- The `POST /api/dividas/.../pagamentos` handler (lines 388-457).  The
non-positive-value check precedes every read and write; on success the payment
row is appended, the debt's `valor_pago` and `status` are updated and
committed, and then the best-effort synthetic-sale write runs (see
`syntheticVendaWrite`). -/
def registrar_pagamento_divida (db : DB) (divida_id : String)
    (payload : PagamentoDividaIn) : Except DividaErro (DB × Divida) :=
  if payload.valor ≤ 0 then .error .valorNaoPositivo
  else
    match parseUuidStr divida_id with
    | none => .error .idInvalido
    | some du =>
      match findDivida db.dividas du with
      | none => .error .naoEncontrada
      | some divida =>
        let pagamento : PagamentoDivida :=
          { divida_id := divida.id
            valor := payload.valor
            forma_pagamento := payload.forma_pagamento
            usuario_id := parseUuidOpt payload.usuario_id }
        let novo_valor_pago := divida.valor_pago + payload.valor
        let status := if divida.valor_total - 1 / 100 ≤ novo_valor_pago
          then ("Quitado") else ("Parcial")
        let nova := { divida with valor_pago := novo_valor_pago, status := status }
        let db1 : DB := { db with dividas := updateDividaIn db.dividas divida.id nova
                                  pagamentos := pagamento :: db.pagamentos }
        .ok (syntheticVendaWrite db1 nova divida_id payload, nova)

/-- The state the store is left in after a debt-route call: committed state on
success, rolled-back input state on rejection. -/
def dividaCommit (db : DB) (r : Except DividaErro (DB × Divida)) : DB :=
  match r with
  | .ok p => p.1
  | .error _ => db

/-- The item loop shared by `criar_divida` (lines 126-144) and `sync_dividas`
(lines 304-321): each line's `produto_id` must parse and reference an existing
product; the built `ItemDivida` rows are staged. -/
def buildItensDivida (did : Nat) (produtos : List Produto) :
    List ItemDividaIn → Except DividaErro (List ItemDivida)
  | [] => .ok []
  | it :: rest =>
    match parseUuidStr it.produto_id with
    | none => .error (.produtoIdInvalido it.produto_id)
    | some pu =>
      match findProduto produtos pu with
      | none => .error (.produtoInexistente it.produto_id)
      | some _ =>
        match buildItensDivida did produtos rest with
        | .error e => .error e
        | .ok xs =>
          .ok ({ divida_id := did
                 produto_id := pu
                 quantidade := it.quantidade
                 preco_unit := it.preco_unit
                 subtotal := it.subtotal } :: xs)

/-- The debt value computation shared by `criar_divida` (lines 103-107) and
`sync_dividas` (lines 281-285): the original value is the sum of line
subtotals; a positive percentual discount overrides the explicit discount
amount; the total is clamped at 0. -/
def dividaValores (payload : DividaCreateIn) : ℚ × ℚ × ℚ :=
  let valor_original := payload.itens.foldl (fun a i => a + i.subtotal) 0
  let desconto := if 0 < payload.percentual_desconto
    then valor_original * (payload.percentual_desconto / 100)
    else payload.desconto_aplicado
  (valor_original, desconto, max 0 (valor_original - desconto))

/-- The `POST /api/dividas/` handler (lines 91-161).  `fresh` is the id the
store generates for the new debt row. -/
def criar_divida (db : DB) (payload : DividaCreateIn) (fresh : Nat) :
    Except DividaErro (DB × Divida) :=
  if payload.itens.isEmpty then .error .semItens
  else
    let valores := dividaValores payload
    let nova : Divida :=
      { id := fresh
        id_local := payload.id_local
        cliente_id := parseUuidOpt payload.cliente_id
        usuario_id := parseUuidOpt payload.usuario_id
        valor_total := valores.2.2
        valor_original := valores.1
        desconto_aplicado := valores.2.1
        percentual_desconto := payload.percentual_desconto
        valor_pago := 0
        status := ("Pendente")
        observacao := payload.observacao }
    match buildItensDivida fresh db.produtos payload.itens with
    | .error e => .error e
    | .ok itens =>
      .ok ({ db with dividas := db.dividas ++ [nova]
                     itens_divida := db.itens_divida ++ itens }, nova)

/-! ### Batch debt sync (`sync_dividas`, dividas.py lines 248-352)

The whole batch runs on one session.  Successful items are only
`add`-and-`flush`-ed (staged); the single `commit` happens after the loop.  A
failing item triggers `await db.rollback()`, which rolls back the session's
open transaction — discarding the staged writes of every item processed since
the last rollback, not just the failing item's. -/

/-- One per-item error entry of the sync response. -/
structure SyncErro where
  index : Nat
  id_local : Option Int
  detail : String
deriving DecidableEq

/-- The sync response (counts plus per-item errors). -/
structure SyncResult where
  status : String
  created : Nat
  skipped : Nat
  errors : List SyncErro
deriving DecidableEq

/-- Accumulated state of the sync loop: staged (flushed, uncommitted) rows and
the response counters. -/
structure SyncState where
  stagedD : List Divida
  stagedI : List ItemDivida
  created : Nat
  skipped : Nat
  errors : List SyncErro
deriving DecidableEq

/-- The detail string recorded for a failing sync item. -/
def syncDetail : DividaErro → String
  | .semItens => ("Divida sem itens nao pode ser sincronizada.")
  | .produtoIdInvalido s => ("produto_id invalido: ") ++ s
  | .produtoInexistente s => ("Produto inexistente no servidor: ") ++ s
  | _ => ("erro")

/-- The per-item loop of `sync_dividas` (lines 263-338).  The duplicate check
queries the session, which sees committed rows plus the staged ones; a
failure records the error and clears every staged write (session rollback). -/
def syncLoop (db : DB) (fresh : Nat → Nat) :
    List DividaCreateIn → Nat → SyncState → SyncState
  | [], _, st => st
  | item :: rest, idx, st =>
    let dup := match item.id_local with
      | some l => (db.dividas ++ st.stagedD).any (fun d => decide (d.id_local = some l))
      | none => false
    if dup then
      syncLoop db fresh rest (idx + 1) { st with skipped := st.skipped + 1 }
    else if item.itens.isEmpty then
      syncLoop db fresh rest (idx + 1)
        { st with stagedD := []
                  stagedI := []
                  errors := st.errors ++
                    [{ index := idx, id_local := item.id_local, detail := syncDetail .semItens }] }
    else
      let valores := dividaValores item
      let nova : Divida :=
        { id := fresh idx
          id_local := item.id_local
          cliente_id := parseUuidOpt item.cliente_id
          usuario_id := parseUuidOpt item.usuario_id
          valor_total := valores.2.2
          valor_original := valores.1
          desconto_aplicado := valores.2.1
          percentual_desconto := item.percentual_desconto
          valor_pago := 0
          status := ("Pendente")
          observacao := item.observacao }
      match buildItensDivida (fresh idx) db.produtos item.itens with
      | .error e =>
        syncLoop db fresh rest (idx + 1)
          { st with stagedD := []
                    stagedI := []
                    errors := st.errors ++
                      [{ index := idx, id_local := item.id_local, detail := syncDetail e }] }
      | .ok itens =>
        syncLoop db fresh rest (idx + 1)
          { st with stagedD := st.stagedD ++ [nova]
                    stagedI := st.stagedI ++ itens
                    created := st.created + 1 }

/-- The `POST /api/dividas/sync` handler (lines 248-352).  `fresh idx` is the
id the store generates for the debt created from the item at index `idx`.
The final commit persists exactly the writes still staged after the loop. -/
def sync_dividas (db : DB) (payload : List DividaCreateIn) (fresh : Nat → Nat) :
    DB × SyncResult :=
  if payload.isEmpty then
    (db, { status := ("ok"), created := 0, skipped := 0, errors := [] })
  else
    let st := syncLoop db fresh payload 0
      { stagedD := [], stagedI := [], created := 0, skipped := 0, errors := [] }
    ({ db with dividas := db.dividas ++ st.stagedD
               itens_divida := db.itens_divida ++ st.stagedI },
     { status := if st.errors.isEmpty then ("ok") else ("partial")
       created := st.created
       skipped := st.skipped
       errors := st.errors })

/-- Sequential application of payment registrations (the committed state after
each call feeds the next; a rejected call leaves the state unchanged). -/
def applyPagamentos (db : DB) : List (String × PagamentoDividaIn) → DB
  | [] => db
  | op :: rest =>
    applyPagamentos (dividaCommit db (registrar_pagamento_divida db op.1 op.2)) rest

deriving instance DecidableEq for Except

/-! ### Concrete stores and requests used by the per-claim witnesses,
counterexamples and failing-input evaluations -/

/-- Canonical UUID string of the integer 0. -/
def uuidStr0 : String := ("00000000-0000-0000-0000-000000000000")

/-- Canonical UUID string of the integer 5. -/
def uuidStr5 : String := ("00000000-0000-0000-0000-000000000005")

/-- A store holding one debt of 200.00 with 150.00 already paid (id 5). -/
def dbC1 : DB :=
  { produtos := [], vendas := [], itens_venda := [],
    dividas := [{ id := 5, id_local := some 7, cliente_id := none, usuario_id := none,
                  valor_total := 200, valor_original := 200, desconto_aplicado := 0,
                  percentual_desconto := 0, valor_pago := 150, status := ("Parcial"),
                  observacao := none }],
    itens_divida := [], pagamentos := [] }

/-- The settling 50.00 payment on the debt of `dbC1`. -/
def pagC1 : PagamentoDividaIn :=
  { valor := 50, forma_pagamento := ("Dinheiro"), usuario_id := none }

/-- A 1-unit-in-stock product (id 0), not service-classified. -/
def prodC3 : Produto :=
  { id := 0, codigo := some ("P001"), nome := ("arroz"), preco_custo := 2, estoque := 1,
    categoria_id := none, venda_por_peso := false, taxa_iva := 15, stockTracked := some true }

/-- A store holding only `prodC3`. -/
def dbC3 : DB :=
  { produtos := [prodC3], vendas := [], itens_venda := [], dividas := [],
    itens_divida := [], pagamentos := [] }

/-- A sale request for 5 units of the 1-unit-stock product. -/
def reqC3 : VendaCreate :=
  { usuario_id := none, cliente_id := none, total := 575, desconto := none,
    aplicar_iva := some true, forma_pagamento := ("Dinheiro"), observacoes := none,
    uuid := none,
    itens := [{ produto_id := uuidStr0, quantidade := 5, peso_kg := none,
                preco_unit := 115, subtotal := 575,
                taxa_iva := none, base_iva := none, valor_iva := none }] }

/-- A 10-units-in-stock product (id 0) for the idempotency scenario. -/
def prodC4 : Produto :=
  { id := 0, codigo := some ("P002"), nome := ("feijao"), preco_custo := 3, estoque := 10,
    categoria_id := none, venda_por_peso := false, taxa_iva := 0, stockTracked := some true }

/-- A store holding only `prodC4`. -/
def dbC4 : DB :=
  { produtos := [prodC4], vendas := [], itens_venda := [], dividas := [],
    itens_divida := [], pagamentos := [] }

/-- UUID string of the integer 42, the shared idempotency key. -/
def uuidStr42 : String := ("00000000-0000-0000-0000-00000000002a")

/-- First sale request carrying the key `uuidStr42`: 3 units. -/
def reqC4a : VendaCreate :=
  { usuario_id := none, cliente_id := none, total := 115, desconto := none,
    aplicar_iva := some false, forma_pagamento := ("Dinheiro"), observacoes := none,
    uuid := some uuidStr42,
    itens := [{ produto_id := uuidStr0, quantidade := 3, peso_kg := none,
                preco_unit := 115, subtotal := 345,
                taxa_iva := none, base_iva := none, valor_iva := none }] }

/-- Second sale request carrying the same key but a different payload: 5 units
and another payment method. -/
def reqC4b : VendaCreate :=
  { usuario_id := none, cliente_id := none, total := 575, desconto := none,
    aplicar_iva := some false, forma_pagamento := ("Mpesa"), observacoes := none,
    uuid := some uuidStr42,
    itens := [{ produto_id := uuidStr0, quantidade := 5, peso_kg := none,
                preco_unit := 115, subtotal := 575,
                taxa_iva := none, base_iva := none, valor_iva := none }] }

/-- The state committed by the first request `reqC4a` against `dbC4`. -/
def db1C4 : DB := commitOf dbC4 (criar_venda dbC4 reqC4a 1)

/-- The sale record the first request creates (id 42 from the client key). -/
def v1C4 : Venda :=
  { id := 42, usuario_id := none, cliente_id := none, total := 115, desconto := 0,
    forma_pagamento := ("Dinheiro"), observacoes := none, cancelada := false }

/-- A product catalog entry (id 0) for the batch-sync scenario. -/
def dbC5 : DB :=
  { produtos := [{ id := 0, codigo := some ("P003"), nome := ("oleo"), preco_custo := 1,
                   estoque := 50, categoria_id := none, venda_por_peso := false, taxa_iva := 0,
                   stockTracked := some true }],
    vendas := [], itens_venda := [], dividas := [], itens_divida := [], pagamentos := [] }

/-- Batch item A: a valid debt with local id 1. -/
def syncA : DividaCreateIn :=
  { id_local := some 1, cliente_id := none, usuario_id := none, observacao := none,
    desconto_aplicado := 0, percentual_desconto := 0,
    itens := [{ produto_id := uuidStr0, quantidade := 1, preco_unit := 10, subtotal := 10 }] }

/-- Batch item B: an invalid debt (no items) with local id 2. -/
def syncB : DividaCreateIn :=
  { id_local := some 2, cliente_id := none, usuario_id := none, observacao := none,
    desconto_aplicado := 0, percentual_desconto := 0, itens := [] }

/-- Batch item C: a valid debt with local id 3. -/
def syncC : DividaCreateIn :=
  { id_local := some 3, cliente_id := none, usuario_id := none, observacao := none,
    desconto_aplicado := 0, percentual_desconto := 0,
    itens := [{ produto_id := uuidStr0, quantidade := 2, preco_unit := 10, subtotal := 20 }] }

/-- A store holding one fresh debt of 200.00 with nothing paid (id 5). -/
def dbC6 : DB :=
  { produtos := [], vendas := [], itens_venda := [],
    dividas := [{ id := 5, id_local := none, cliente_id := none, usuario_id := none,
                  valor_total := 200, valor_original := 200, desconto_aplicado := 0,
                  percentual_desconto := 0, valor_pago := 0, status := ("Pendente"),
                  observacao := none }],
    itens_divida := [], pagamentos := [] }

/-- The debt of `dbC6`. -/
def divC6 : Divida :=
  { id := 5, id_local := none, cliente_id := none, usuario_id := none,
    valor_total := 200, valor_original := 200, desconto_aplicado := 0,
    percentual_desconto := 0, valor_pago := 0, status := ("Pendente"), observacao := none }

/-- The partial 150.00 payment of the debt-settlement scenario. -/
def pagC6 : PagamentoDividaIn :=
  { valor := 150, forma_pagamento := ("Dinheiro"), usuario_id := none }

/-- A store with one product, from which the overpayment scenario builds its
debt. -/
def dbC7 : DB :=
  { produtos := [{ id := 0, codigo := some ("P004"), nome := ("acucar"), preco_custo := 1,
                   estoque := 50, categoria_id := none, venda_por_peso := false, taxa_iva := 0,
                   stockTracked := some true }],
    vendas := [], itens_venda := [], dividas := [], itens_divida := [], pagamentos := [] }

/-- A debt-creation payload of one 200.00 line, no discount. -/
def payC7 : DividaCreateIn :=
  { id_local := some 11, cliente_id := none, usuario_id := none, observacao := none,
    desconto_aplicado := 0, percentual_desconto := 0,
    itens := [{ produto_id := uuidStr0, quantidade := 1, preco_unit := 200, subtotal := 200 }] }

/-- UUID string of the integer 9 (the id given to the debt of `payC7`). -/
def uuidStr9 : String := ("00000000-0000-0000-0000-000000000009")

/-- The state after creating the 200.00 debt of `payC7` (id 9). -/
def dbC7b : DB := dividaCommit dbC7 (criar_divida dbC7 payC7 9)

/-- A 300.00 payment against the 200.00 debt. -/
def pagC7 : PagamentoDividaIn :=
  { valor := 300, forma_pagamento := ("Dinheiro"), usuario_id := none }

/-- A store for the monotonicity witness: one debt of 200.00, none paid. -/
def dbC7w : DB := dbC6

/-- Two successive payments used by the monotonicity witness. -/
def opsC7 : List (String × PagamentoDividaIn) :=
  [(uuidStr5, { valor := 150, forma_pagamento := ("Dinheiro"), usuario_id := none }),
   (uuidStr5, { valor := 50, forma_pagamento := ("Dinheiro"), usuario_id := none })]

/-- A product whose catalog cost is 2.00 (id 0), for the frozen-cost claim. -/
def dbC8 : DB :=
  { produtos := [{ id := 0, codigo := some ("C001"), nome := ("cabo usb"), preco_custo := 2,
                   estoque := 5, categoria_id := none, venda_por_peso := false, taxa_iva := 0,
                   stockTracked := some true }],
    vendas := [], itens_venda := [], dividas := [], itens_divida := [], pagamentos := [] }

/-- A raw client line carrying the per-line unit cost 7.50 in the extra field
`preco_custo_unitario`. -/
def rawC8 : ItemVendaRaw :=
  { produto_id := uuidStr0, quantidade := 1, peso_kg := none, preco_unit := 10,
    subtotal := 10, taxa_iva := none, base_iva := none, valor_iva := none,
    preco_custo_unit := some (15 / 2) }

/-- The sale request whose single line is the validated form of `rawC8`. -/
def reqC8 : VendaCreate :=
  { usuario_id := none, cliente_id := none, total := 10, desconto := none,
    aplicar_iva := some true, forma_pagamento := ("Dinheiro"), observacoes := none,
    uuid := none, itens := [validateItemVenda rawC8] }

/-- A product explicitly flagged stock-tracked whose code nevertheless starts
with `srv` (id 0, stock 5). -/
def prodC9 : Produto :=
  { id := 0, codigo := some ("srv001"), nome := ("cabo hdmi"), preco_custo := 1, estoque := 5,
    categoria_id := none, venda_por_peso := false, taxa_iva := 0, stockTracked := some true }

/-- A store holding only `prodC9`. -/
def dbC9 : DB :=
  { produtos := [prodC9], vendas := [], itens_venda := [], dividas := [],
    itens_divida := [], pagamentos := [] }

/-- A sale request for 2 units of `prodC9`. -/
def reqC9 : VendaCreate :=
  { usuario_id := none, cliente_id := none, total := 20, desconto := none,
    aplicar_iva := some true, forma_pagamento := ("Dinheiro"), observacoes := none,
    uuid := none,
    itens := [{ produto_id := uuidStr0, quantidade := 2, peso_kg := none,
                preco_unit := 10, subtotal := 20,
                taxa_iva := none, base_iva := none, valor_iva := none }] }

/-- A service product (name matches the `impress` keyword, no flag set) with
stock 3 (id 0). -/
def prodC9s : Produto :=
  { id := 0, codigo := some ("X001"), nome := ("Impressao A4"), preco_custo := 0, estoque := 3,
    categoria_id := none, venda_por_peso := false, taxa_iva := 0, stockTracked := none }

/-- A stock-tracked product with stock 10 (id 1), sold next to the service. -/
def prodC9t : Produto :=
  { id := 1, codigo := some ("P009"), nome := ("papel"), preco_custo := 1, estoque := 10,
    categoria_id := none, venda_por_peso := false, taxa_iva := 0, stockTracked := some true }

/-- A store holding the service product and the stock-tracked product. -/
def dbC9m : DB :=
  { produtos := [prodC9s, prodC9t], vendas := [], itens_venda := [], dividas := [],
    itens_divida := [], pagamentos := [] }

/-- Canonical UUID string of the integer 1. -/
def uuidStr1 : String := ("00000000-0000-0000-0000-000000000001")

/-- A mixed sale: one million units of the service product next to 2 units of
the stock-tracked product. -/
def reqC9m : VendaCreate :=
  { usuario_id := none, cliente_id := none, total := 1000020, desconto := none,
    aplicar_iva := some false, forma_pagamento := ("Dinheiro"), observacoes := none,
    uuid := none,
    itens := [{ produto_id := uuidStr0, quantidade := 1000000, peso_kg := none,
                preco_unit := 1, subtotal := 1000000,
                taxa_iva := none, base_iva := none, valor_iva := none },
              { produto_id := uuidStr1, quantidade := 2, peso_kg := none,
                preco_unit := 10, subtotal := 20,
                taxa_iva := none, base_iva := none, valor_iva := none }] }

/-- The state committed by the mixed sale. -/
def dbC9mAfter : DB := commitOf dbC9m (criar_venda dbC9m reqC9m 7)

/-- The sale record created by the mixed sale. -/
def vC9m : Venda :=
  { id := 7, usuario_id := none, cliente_id := none, total := 1000020, desconto := 0,
    forma_pagamento := ("Dinheiro"), observacoes := none, cancelada := false }

/-- An empty store for the malformed-key scenario. -/
def dbC10 : DB :=
  { produtos := [], vendas := [], itens_venda := [], dividas := [],
    itens_divida := [], pagamentos := [] }

/-- A sale request whose `uuid` field is present but not a parseable UUID. -/
def reqC10 : VendaCreate :=
  { usuario_id := none, cliente_id := none, total := 0, desconto := none,
    aplicar_iva := some true, forma_pagamento := ("Dinheiro"), observacoes := none,
    uuid := some ("not-a-uuid"), itens := [] }

/-! ### Helper lemmas -/

theorem find?_map_pres {α : Type} (f : α → α) (p : α → Bool) (h : ∀ a, p (f a) = p a)
    (l : List α) : (l.map f).find? p = (l.find? p).map f := by
  induction l with
  | nil => rfl
  | cons a t ih =>
    by_cases hp : p a = true
    · simp [List.find?_cons_of_pos, hp, h a]
    · have hpa : p a = false := by simpa using hp
      rw [List.map_cons, List.find?_cons_of_neg _ (by simp [h a, hpa]),
        List.find?_cons_of_neg _ (by simp [hpa]), ih]

theorem findProduto_updateEstoque (ps : List Produto) (u w : Nat) (novo : ℚ) :
    findProduto (updateEstoque ps u novo) w =
      (findProduto ps w).map (fun q => if q.id = u then { q with estoque := novo } else q) := by
  apply find?_map_pres
  intro a
  by_cases h : a.id = u <;> simp [h]

theorem findDivida_updateDividaIn (ds : List Divida) (t w : Nat) (nova : Divida)
    (hid : nova.id = t) :
    findDivida (updateDividaIn ds t nova) w =
      (findDivida ds w).map (fun q => if q.id = t then nova else q) := by
  apply find?_map_pres
  intro a
  by_cases h : a.id = t <;> simp [h, hid]

/-- Relation between the products list at transaction start (`ps0`) and the
current in-session list (`ps`): the same rows in the same places, with the
stock field only ever decreased. -/
def stockRel (ps0 ps : List Produto) : Prop :=
  ∀ u p0, findProduto ps0 u = some p0 →
    ∃ p, findProduto ps u = some p ∧ p.estoque ≤ p0.estoque ∧
      p = { p0 with estoque := p.estoque }

theorem stockRel_refl (ps : List Produto) : stockRel ps ps := by
  intro u p0 h
  exact ⟨p0, h, le_refl _, by cases p0; rfl⟩

theorem findProduto_id {ps : List Produto} {u : Nat} {p : Produto}
    (h : findProduto ps u = some p) : p.id = u := by
  have := List.find?_some h
  simpa using this

theorem findDivida_id {ds : List Divida} {u : Nat} {d : Divida}
    (h : findDivida ds u = some d) : d.id = u := by
  have := List.find?_some h
  simpa using this

theorem itemDelta_pos (it : ItemVendaCreate) (p : Produto) : 0 < itemDelta it p := by
  unfold itemDelta
  by_cases h : (p.venda_por_peso && decide (0 < it.peso_kg.getD 0)) = true
  · simp only [h, if_true]
    have := (Bool.and_eq_true _ _).mp h
    exact of_decide_eq_true this.2
  · simp only [h, Bool.false_eq_true, if_false]
    have h1 : (1 : Nat) ≤ max 1 it.quantidade := le_max_left _ _
    exact_mod_cast Nat.lt_of_lt_of_le Nat.zero_lt_one h1

theorem stockRel_update (ps0 ps : List Produto) (hrel : stockRel ps0 ps) (u : Nat) (p : Produto)
    (hp : findProduto ps u = some p) (delta : ℚ) (hdelta : 0 ≤ delta) :
    stockRel ps0 (updateEstoque ps u (p.estoque - delta)) := by
  intro w p0 hw
  obtain ⟨q, hq, hle, hcong⟩ := hrel w p0 hw
  rw [findProduto_updateEstoque, hq]
  by_cases hqu : q.id = u
  · have hqw : q.id = w := findProduto_id hq
    have hwu : w = u := hqw ▸ hqu
    subst hwu
    have hqp : q = p := by rw [hq] at hp; exact Option.some.inj hp
    subst hqp
    refine ⟨{ q with estoque := q.estoque - delta }, by simp [hqu], ?_, ?_⟩
    · show q.estoque - delta ≤ p0.estoque
      linarith
    · show ({ q with estoque := q.estoque - delta } : Produto) =
        { p0 with estoque := q.estoque - delta }
      obtain ⟨qid, qc, qn, qpc, qe, qcat, qvp, qt, qst⟩ := q
      obtain ⟨pid, pc, pn, ppc, pe, pcat, pvp, pt, pst⟩ := p0
      simp only [Produto.mk.injEq] at hcong ⊢
      tauto
  · exact ⟨q, by simp [hqu], hle, hcong⟩

theorem processItens_preserva_servico (vid : Nat) (aplicar : Bool) :
    ∀ (items : List ItemVendaCreate) (ps : List Produto) (acc : List ItemVenda)
      (u : Nat) (p : Produto), findProduto ps u = some p → is_servico p = true →
      ∀ ps' acc', processItens vid aplicar items ps acc = .ok (ps', acc') →
      findProduto ps' u = some p := by
  intro items
  induction items with
  | nil =>
    intro ps acc u p hp hserv ps' acc' h
    simp only [processItens] at h
    have hps : ps = ps' := congrArg Prod.fst (Except.ok.inj h)
    rw [← hps]
    exact hp
  | cons item rest ih =>
    intro ps acc u p hp hserv ps' acc' h
    simp only [processItens] at h
    cases hparse : pythonUUIDParse item.produto_id with
    | none =>
      simp only [hparse] at h
      exact Except.noConfusion h
    | some pu =>
      simp only [hparse] at h
      cases hfind : findProduto ps pu with
      | none =>
        simp only [hfind] at h
        exact Except.noConfusion h
      | some p' =>
        simp only [hfind] at h
        by_cases hs : is_servico p' = true
        · simp only [hs, if_true] at h
          exact ih ps _ u p hp hserv ps' acc' h
        · have hsF : is_servico p' = false := by simpa using hs
          simp only [hsF, Bool.false_eq_true, if_false] at h
          by_cases hst : p'.estoque < itemDelta item p' - eps1e9
          · rw [if_pos hst] at h
            exact Except.noConfusion h
          · rw [if_neg hst] at h
            apply ih _ _ u p _ hserv ps' acc' h
            rw [findProduto_updateEstoque, hp]
            by_cases hpu : p.id = pu
            · exfalso
              have hpid : p.id = u := findProduto_id hp
              have hup : u = pu := hpid ▸ hpu
              rw [← hup] at hfind
              rw [hp] at hfind
              have : p = p' := Option.some.inj hfind
              rw [← this] at hsF
              rw [hserv] at hsF
              exact Bool.noConfusion hsF
            · simp [hpu]

theorem processItens_err_of_insuficiente (vid : Nat) (aplicar : Bool) (ps0 : List Produto) :
    ∀ (items : List ItemVendaCreate) (ps : List Produto) (acc : List ItemVenda),
      stockRel ps0 ps →
      (∀ it ∈ items, lineResolves ps0 it = true) →
      (∃ it ∈ items, lineEstoqueInsuficiente ps0 it = true) →
      ∃ n d s, processItens vid aplicar items ps acc =
        Except.error (VendaErro.estoqueInsuficiente n d s) := by
  intro items
  induction items with
  | nil => intro ps acc _ _ hbad; simp at hbad
  | cons item rest ih =>
    intro ps acc hrel hall hbad
    have hres := hall item (by simp)
    unfold lineResolves at hres
    cases hparse : pythonUUIDParse item.produto_id with
    | none => simp only [hparse] at hres; exact absurd hres (by simp)
    | some pu =>
      simp only [hparse] at hres
      cases hfind0 : findProduto ps0 pu with
      | none => simp only [hfind0] at hres; exact absurd hres (by simp)
      | some p0 =>
        obtain ⟨p, hp, hle, hcong⟩ := hrel pu p0 hfind0
        have hservEq : is_servico p = is_servico p0 := by rw [hcong]; rfl
        have hdeltaEq : itemDelta item p = itemDelta item p0 := by rw [hcong]; rfl
        simp only [processItens, hparse, hp]
        by_cases hserv : is_servico p = true
        · simp only [hserv, if_true]
          apply ih ps _ hrel (fun it hit => hall it (List.mem_cons_of_mem _ hit))
          obtain ⟨it, hit, hbadit⟩ := hbad
          rcases List.mem_cons.mp hit with hEq | hmem
          · exfalso
            subst hEq
            unfold lineEstoqueInsuficiente at hbadit
            simp only [hparse, hfind0] at hbadit
            obtain ⟨h1, _⟩ := (Bool.and_eq_true _ _).mp hbadit
            have h0 : is_servico p0 = false := by simpa using h1
            rw [hservEq, h0] at hserv
            exact Bool.noConfusion hserv
          · exact ⟨it, hmem, hbadit⟩
        · have hservF : is_servico p = false := by simpa using hserv
          simp only [hservF, Bool.false_eq_true, if_false]
          by_cases hst : p.estoque < itemDelta item p - eps1e9
          · exact ⟨p.nome, p.estoque, itemDelta item p, by simp only [if_pos hst]⟩
          · simp only [if_neg hst]
            apply ih _ _
              (stockRel_update ps0 ps hrel pu p hp _ (le_of_lt (itemDelta_pos item p)))
              (fun it hit => hall it (List.mem_cons_of_mem _ hit))
            obtain ⟨it, hit, hbadit⟩ := hbad
            rcases List.mem_cons.mp hit with hEq | hmem
            · exfalso
              subst hEq
              unfold lineEstoqueInsuficiente at hbadit
              simp only [hparse, hfind0] at hbadit
              obtain ⟨h1, h2⟩ := (Bool.and_eq_true _ _).mp hbadit
              have hlt : p0.estoque < itemDelta it p0 - eps1e9 := of_decide_eq_true h2
              apply hst
              rw [hdeltaEq]
              exact lt_of_le_of_lt hle hlt
            · exact ⟨it, hmem, hbadit⟩

theorem syntheticVendaWrite_dividas (db1 : DB) (d : Divida) (s : String)
    (q : PagamentoDividaIn) : (syntheticVendaWrite db1 d s q).dividas = db1.dividas := by
  unfold syntheticVendaWrite
  split <;> rfl

theorem registrar_mono_step (db : DB) (sid : String) (q : PagamentoDividaIn) (u : Nat)
    (d0 : Divida) (h0 : findDivida db.dividas u = some d0) :
    ∃ d1, findDivida (dividaCommit db (registrar_pagamento_divida db sid q)).dividas u = some d1 ∧
      d0.valor_pago ≤ d1.valor_pago := by
  unfold registrar_pagamento_divida
  by_cases hval : q.valor ≤ 0
  · simp only [if_pos hval, dividaCommit]
    exact ⟨d0, h0, le_refl _⟩
  · simp only [if_neg hval]
    cases hparse : parseUuidStr sid with
    | none =>
      simp only [hparse, dividaCommit]
      exact ⟨d0, h0, le_refl _⟩
    | some du =>
      simp only [hparse]
      cases hfindT : findDivida db.dividas du with
      | none =>
        simp only [hfindT, dividaCommit]
        exact ⟨d0, h0, le_refl _⟩
      | some divida =>
        simp only [hfindT, dividaCommit, syntheticVendaWrite_dividas]
        have hrw := findDivida_updateDividaIn db.dividas divida.id u
          { divida with
              valor_pago := divida.valor_pago + q.valor,
              status := (if divida.valor_total - 1 / 100 ≤ divida.valor_pago + q.valor then ("Quitado") else ("Parcial")) }
          rfl
        rw [hrw, h0]
        by_cases hd : d0.id = divida.id
        · have hdu : divida.id = du := findDivida_id hfindT
          have h0u : d0.id = u := findDivida_id h0
          have huu : u = du := by rw [← h0u, hd, hdu]
          have hdd : d0 = divida := by
            rw [huu] at h0
            exact Option.some.inj (h0.symm.trans hfindT)
          refine ⟨{ divida with
              valor_pago := divida.valor_pago + q.valor,
              status := (if divida.valor_total - 1 / 100 ≤ divida.valor_pago + q.valor then ("Quitado") else ("Parcial")) },
            ?_, ?_⟩
          · simp [hd]
          · show d0.valor_pago ≤ divida.valor_pago + q.valor
            rw [hdd]
            have hq : 0 < q.valor := lt_of_not_le hval
            linarith
        · exact ⟨d0, by simp [hd], le_refl _⟩

theorem applyPagamentos_mono (ops : List (String × PagamentoDividaIn)) :
    ∀ (db : DB) (u : Nat) (d0 : Divida), findDivida db.dividas u = some d0 →
      ∃ d1, findDivida (applyPagamentos db ops).dividas u = some d1 ∧
        d0.valor_pago ≤ d1.valor_pago := by
  induction ops with
  | nil =>
    intro db u d0 h0
    exact ⟨d0, h0, le_refl _⟩
  | cons op rest ih =>
    intro db u d0 h0
    obtain ⟨d1, h1, hle1⟩ := registrar_mono_step db op.1 op.2 u d0 h0
    obtain ⟨d2, h2, hle2⟩ := ih _ u d1 h1
    exact ⟨d2, h2, le_trans hle1 hle2⟩

/-! ### Claim theorems, witnesses, counterexamples and failing-input evaluations -/

/-- Claim C2: for every sale line with tax-inclusive subtotal `s` and product
tax rate `taxa`, when the apply-tax flag is false or the rate is ≤ 0 the
recorded base equals `s` and the recorded tax amount is 0; otherwise the base
is `s / (1 + taxa/100)` and the tax is `s` minus that base; in particular for
`s = 115` and rate 15 the base is exactly 100 and the tax exactly 15. -/
theorem C2_computeIVA (aplicar : Bool) (taxa s : ℚ) :
    ((aplicar = false ∨ taxa ≤ 0) →
      (computeIVA aplicar taxa s).2.1 = s ∧ (computeIVA aplicar taxa s).2.2 = 0) ∧
    (aplicar = true → 0 < taxa →
      (computeIVA aplicar taxa s).2.1 = s / (1 + taxa / 100) ∧
      (computeIVA aplicar taxa s).2.2 = s - s / (1 + taxa / 100)) ∧
    ((computeIVA true 15 115).2.1 = 100 ∧ (computeIVA true 15 115).2.2 = 15) := by
  refine ⟨?_, ?_, ?_⟩
  · rintro (ha | ht)
    · subst ha
      simp [computeIVA]
    · cases aplicar with
      | false => simp [computeIVA]
      | true =>
        have ht' : ¬ 0 < taxa := not_lt.mpr ht
        simp [computeIVA, ht']
  · intro ha htax
    subst ha
    simp [computeIVA, htax]
  · constructor <;> norm_num [computeIVA]

/-- Claim C2 witness: the theorem applied at rate 0 (base is the subtotal,
tax is 0) and at the round-trip instance subtotal 115, rate 15. -/
theorem C2_computeIVA_witness :
    (computeIVA false 0 7).2.1 = 7 ∧ (computeIVA false 0 7).2.2 = 0 ∧
    (computeIVA true 15 115).2.1 = 100 ∧ (computeIVA true 15 115).2.2 = 15 :=
  ⟨((C2_computeIVA false 0 7).1 (Or.inl rfl)).1,
   ((C2_computeIVA false 0 7).1 (Or.inl rfl)).2,
   (C2_computeIVA true 15 115).2.2.1,
   (C2_computeIVA true 15 115).2.2.2⟩

theorem syntheticVendaWrite_pagamentos (db1 : DB) (d : Divida) (s : String)
    (q : PagamentoDividaIn) : (syntheticVendaWrite db1 d s q).pagamentos = db1.pagamentos := by
  unfold syntheticVendaWrite
  split <;> rfl

/-- Claim C6: a debt payment with non-positive value is rejected before any
write; a positive payment on an existing debt succeeds, appends the payment
row, increases `valor_pago` by exactly the payment value, and sets the status
to Quitado (settled) when the new `valor_pago` reaches `valor_total - 0.01`
and to Parcial otherwise. -/
theorem C6_registro_pagamento (db : DB) (ds : String) (payload : PagamentoDividaIn)
    (u : Nat) (d : Divida)
    (hparse : parseUuidStr ds = some u) (hfind : findDivida db.dividas u = some d) :
    (payload.valor ≤ 0 →
      registrar_pagamento_divida db ds payload = .error .valorNaoPositivo ∧
      dividaCommit db (registrar_pagamento_divida db ds payload) = db) ∧
    (0 < payload.valor →
      ∃ db' d', registrar_pagamento_divida db ds payload = .ok (db', d') ∧
        d'.valor_pago = d.valor_pago + payload.valor ∧
        d'.status = (if d.valor_total - 1 / 100 ≤ d.valor_pago + payload.valor
          then ("Quitado") else ("Parcial")) ∧
        db'.pagamentos = ({ divida_id := d.id, valor := payload.valor, forma_pagamento := payload.forma_pagamento, usuario_id := parseUuidOpt payload.usuario_id } : PagamentoDivida) :: db.pagamentos ∧
        findDivida db'.dividas u = some d') := by
  constructor
  · intro hv
    unfold registrar_pagamento_divida
    rw [if_pos hv]
    exact ⟨rfl, rfl⟩
  · intro hv
    have hnv : ¬ payload.valor ≤ 0 := not_le.mpr hv
    unfold registrar_pagamento_divida
    rw [if_neg hnv]
    simp only [hparse, hfind]
    refine ⟨_, _, rfl, rfl, rfl, ?_, ?_⟩
    · rw [syntheticVendaWrite_pagamentos]
    · rw [syntheticVendaWrite_dividas]
      have hrw := findDivida_updateDividaIn db.dividas d.id u
        { d with
            valor_pago := d.valor_pago + payload.valor,
            status := (if d.valor_total - 1 / 100 ≤ d.valor_pago + payload.valor then ("Quitado") else ("Parcial")) }
        rfl
      rw [hrw, hfind]
      simp [findDivida_id hfind]

/-- Claim C6 witness: on the 200.00 debt with nothing paid, the theorem applied
to the 150.00 payment; the recorded status expression evaluates to Parcial. -/
theorem C6_registro_pagamento_witness :
    ∃ db' d', registrar_pagamento_divida dbC6 uuidStr5 pagC6 = .ok (db', d') ∧
      d'.valor_pago = divC6.valor_pago + pagC6.valor ∧
      d'.status = (if divC6.valor_total - 1 / 100 ≤ divC6.valor_pago + pagC6.valor
        then ("Quitado") else ("Parcial")) ∧
      db'.pagamentos = ({ divida_id := divC6.id, valor := pagC6.valor, forma_pagamento := pagC6.forma_pagamento, usuario_id := parseUuidOpt pagC6.usuario_id } : PagamentoDivida) :: dbC6.pagamentos ∧
      findDivida db'.dividas 5 = some d' :=
  (C6_registro_pagamento dbC6 uuidStr5 pagC6 5 divC6
    (by with_unfolding_all decide) (by with_unfolding_all rfl)).2
    (by with_unfolding_all decide)

/-- Claim C3: a sale-creation request that is not an idempotent replay, whose
lines all reference existing products, and that contains a stock-tracked line
whose delta exceeds the product's current stock (beyond the 1e-9 tolerance),
is rejected whole with a stock-insufficiency error, and the committed state is
exactly the prior state — no stock mutation survives for any product. -/
theorem C3_estoque_insuficiente_rejeita (db : DB) (req : VendaCreate) (fresh : Nat)
    (hnew : findVendaId db.vendas (resolveVendaUuid req.uuid fresh) = none)
    (hall : ∀ it ∈ req.itens, lineResolves db.produtos it = true)
    (hbad : ∃ it ∈ req.itens, lineEstoqueInsuficiente db.produtos it = true) :
    (∃ n d s, criar_venda db req fresh = .error (.estoqueInsuficiente n d s)) ∧
    commitOf db (criar_venda db req fresh) = db := by
  obtain ⟨n, d, s2, herr⟩ := processItens_err_of_insuficiente
    (resolveVendaUuid req.uuid fresh) (aplicarIvaOf req) db.produtos req.itens
    db.produtos [] (stockRel_refl _) hall hbad
  have hcv : criar_venda db req fresh = .error (.estoqueInsuficiente n d s2) := by
    unfold criar_venda
    simp only [hnew, herr]
  refine ⟨⟨n, d, s2, hcv⟩, ?_⟩
  rw [hcv]
  rfl

/-- Claim C3 witness: the 5-unit request against the 1-unit-stock product is
rejected with a stock error and commits nothing. -/
theorem C3_estoque_insuficiente_rejeita_witness :
    (∃ n d s, criar_venda dbC3 reqC3 42 = .error (.estoqueInsuficiente n d s)) ∧
    commitOf dbC3 (criar_venda dbC3 reqC3 42) = dbC3 :=
  C3_estoque_insuficiente_rejeita dbC3 reqC3 42 (by with_unfolding_all rfl)
    (by with_unfolding_all decide) (by with_unfolding_all decide)

/-- Claim C9 (amended, per line): the service classification consults only the
code-prefix, name-substring and category heuristics of `is_servico` — no
stock-tracked flag; and for every line so classified as a service, sale
creation leaves that product's stock unchanged regardless of the requested
quantity: in any committed sale, mixed or not, a service-classified product's
row is found identical before and after. -/
theorem C9_servico_linha_sem_baixa (db : DB) (req : VendaCreate) (fresh : Nat)
    (db' : DB) (v : Venda) (u : Nat) (p : Produto)
    (hp : findProduto db.produtos u = some p) (hserv : is_servico p = true)
    (hrun : criar_venda db req fresh = .ok (db', v)) :
    findProduto db'.produtos u = some p := by
  simp only [criar_venda] at hrun
  cases hfind : findVendaId db.vendas (resolveVendaUuid req.uuid fresh) with
  | some ex =>
    simp only [hfind] at hrun
    have hdb : db = db' := congrArg Prod.fst (Except.ok.inj hrun)
    rw [← hdb]
    exact hp
  | none =>
    simp only [hfind] at hrun
    cases hproc : processItens (resolveVendaUuid req.uuid fresh) (aplicarIvaOf req)
        req.itens db.produtos [] with
    | error e =>
      simp only [hproc] at hrun
      exact Except.noConfusion hrun
    | ok pr =>
      obtain ⟨ps', acc'⟩ := pr
      simp only [hproc] at hrun
      have hdb : _ = db' := congrArg Prod.fst (Except.ok.inj hrun)
      rw [← hdb]
      exact processItens_preserva_servico _ _ req.itens db.produtos [] u p hp hserv
        ps' acc' hproc

/-- Claim C9 amended witness: in the committed mixed sale (one million units of
the `Impressao A4` service line next to a 2-unit stock-tracked line), the
service product's row — stock 3 — is unchanged, while the sibling tracked
product was depleted from 10 to 8. -/
theorem C9_servico_linha_sem_baixa_witness :
    findProduto dbC9mAfter.produtos 0 = some prodC9s ∧
    findProduto dbC9mAfter.produtos 1 = some { prodC9t with estoque := 8 } :=
  ⟨C9_servico_linha_sem_baixa dbC9m reqC9m 7 dbC9mAfter vC9m 0 prodC9s
      (by with_unfolding_all rfl) (by with_unfolding_all decide) (by with_unfolding_all rfl),
   by with_unfolding_all decide⟩

/-- Claim C4: sale creation is idempotent in the sale UUID — if a first
request carrying the parseable key `s` succeeds with committed state `db1` and
returned sale `v1`, then any second request carrying the same key, whatever
its payload and whatever fresh UUID the server would draw, returns exactly the
existing sale `v1` and commits exactly `db1`: no second sale, no sale items,
and no stock change. -/
theorem C4_venda_idempotente (db : DB) (req1 req2 : VendaCreate) (f1 f2 : Nat) (s : String)
    (u : Nat) (db1 : DB) (v1 : Venda)
    (h1 : req1.uuid = some s) (h2 : req2.uuid = some s)
    (hparse : pythonUUIDParse s = some u)
    (hrun : criar_venda db req1 f1 = .ok (db1, v1)) :
    criar_venda db1 req2 f2 = .ok (db1, v1) := by
  have hsne : s ≠ ("") := by
    intro hs
    rw [hs] at hparse
    have hn : pythonUUIDParse ("") = none := by decide
    rw [hn] at hparse
    exact Option.noConfusion hparse
  have hres1 : resolveVendaUuid req1.uuid f1 = u := by
    rw [h1]
    simp [resolveVendaUuid, hsne, hparse]
  have hres2 : resolveVendaUuid req2.uuid f2 = u := by
    rw [h2]
    simp [resolveVendaUuid, hsne, hparse]
  simp only [criar_venda, hres1] at hrun
  simp only [criar_venda, hres2]
  cases hfind : findVendaId db.vendas u with
  | some ex =>
    simp only [hfind] at hrun
    have hpair := Except.ok.inj hrun
    have hdb : db = db1 := congrArg Prod.fst hpair
    have hv : ex = v1 := congrArg Prod.snd hpair
    rw [← hdb, hfind, hv]
  | none =>
    simp only [hfind] at hrun
    cases hproc : processItens u (aplicarIvaOf req1) req1.itens db.produtos [] with
    | error e =>
      simp only [hproc] at hrun
      exact Except.noConfusion hrun
    | ok pr =>
      obtain ⟨ps', acc'⟩ := pr
      simp only [hproc] at hrun
      have hpair := Except.ok.inj hrun
      have hdb : _ = db1 := congrArg Prod.fst hpair
      have hv : novaVenda req1 u = v1 := congrArg Prod.snd hpair
      have hvid : v1.id = u := by rw [← hv]; rfl
      have hfind2 : findVendaId db1.vendas u = some v1 := by
        rw [← hdb, ← hv]
        unfold findVendaId
        exact List.find?_cons_of_pos _ (by simp [novaVenda])
      rw [hfind2]

/-- Claim C4 witness: replaying the key 42 with a different payload returns
the first request's sale and leaves the committed state identical. -/
theorem C4_venda_idempotente_witness : criar_venda db1C4 reqC4b 2 = .ok (db1C4, v1C4) :=
  C4_venda_idempotente dbC4 reqC4a reqC4b 1 2 uuidStr42 42 db1C4 v1C4 rfl rfl
    (by with_unfolding_all decide) (by with_unfolding_all rfl)

/-- Claim C10: a sale-creation request whose `uuid` field is present but not
parseable is not rejected — a fresh server UUID `f1` becomes the sale id and a
new sale is committed; replaying the same request (same malformed key, new
fresh UUID `f2`) creates a second, distinct sale instead of returning the
first: the caller's idempotency key is silently discarded. -/
theorem C10_uuid_invalido_cria_nova (db : DB) (req : VendaCreate) (f1 f2 : Nat) (s : String)
    (ps1 : List Produto) (acc1 : List ItemVenda) (ps2 : List Produto) (acc2 : List ItemVenda)
    (hu : req.uuid = some s) (hbadU : pythonUUIDParse s = none)
    (hf1 : findVendaId db.vendas f1 = none)
    (hp1 : processItens f1 (aplicarIvaOf req) req.itens db.produtos [] = .ok (ps1, acc1))
    (hne : f1 ≠ f2) :
    ∃ db1, criar_venda db req f1 = .ok (db1, novaVenda req f1) ∧
      (novaVenda req f1).id = f1 ∧ db1.vendas = novaVenda req f1 :: db.vendas ∧
      (findVendaId db1.vendas f2 = none →
        processItens f2 (aplicarIvaOf req) req.itens db1.produtos [] = .ok (ps2, acc2) →
        ∃ db2, criar_venda db1 req f2 = .ok (db2, novaVenda req f2) ∧
          (novaVenda req f2).id = f2 ∧ db2.vendas = novaVenda req f2 :: db1.vendas ∧
          novaVenda req f2 ≠ novaVenda req f1) := by
  have hres : ∀ f, resolveVendaUuid req.uuid f = f := by
    intro f
    rw [hu]
    by_cases hs : s = ("") <;> simp [resolveVendaUuid, hs, hbadU]
  refine ⟨{ db with produtos := ps1, vendas := novaVenda req f1 :: db.vendas, itens_venda := acc1 ++ db.itens_venda }, ?_, ?_, ?_, ?_⟩
  · simp only [criar_venda, hres, hf1, hp1]
  · rfl
  · rfl
  · intro hf2 hp2
    refine ⟨{ produtos := ps2, vendas := novaVenda req f2 :: (novaVenda req f1 :: db.vendas), itens_venda := acc2 ++ (acc1 ++ db.itens_venda), dividas := db.dividas, itens_divida := db.itens_divida, pagamentos := db.pagamentos }, ?_, ?_, ?_, ?_⟩
    · simp only [criar_venda, hres, hf2, hp2]
    · rfl
    · rfl
    · intro heq
      exact hne (congrArg Venda.id heq).symm

/-- Claim C10 witness: the theorem applied to an empty store and a request
whose key is the unparseable string `not-a-uuid`, with fresh UUIDs 1 then 2. -/
theorem C10_uuid_invalido_cria_nova_witness :
    ∃ db1, criar_venda dbC10 reqC10 1 = .ok (db1, novaVenda reqC10 1) ∧
      (novaVenda reqC10 1).id = 1 ∧ db1.vendas = novaVenda reqC10 1 :: dbC10.vendas ∧
      (findVendaId db1.vendas 2 = none →
        processItens 2 (aplicarIvaOf reqC10) reqC10.itens db1.produtos [] = .ok ([], []) →
        ∃ db2, criar_venda db1 reqC10 2 = .ok (db2, novaVenda reqC10 2) ∧
          (novaVenda reqC10 2).id = 2 ∧ db2.vendas = novaVenda reqC10 2 :: db1.vendas ∧
          novaVenda reqC10 2 ≠ novaVenda reqC10 1) :=
  C10_uuid_invalido_cria_nova dbC10 reqC10 1 2 ("not-a-uuid") [] [] [] [] rfl
    (by decide) rfl rfl (by decide)

/-- Claim C1 (failing-input evaluation): settling a 200.00 debt that already
has 150.00 paid with a 50.00 payment succeeds and updates the debt to
Quitado/200.00, yet the committed state contains no synthetic sale at all
(the store's `vendas` table stays empty): the `Venda` name is not imported in
app/routers/dividas.py, so the secondary write of lines 427-443 always dies
with a swallowed `NameError`. -/
theorem C1_pagamento_sem_venda_sintetica :
    (exceptOk? (registrar_pagamento_divida dbC1 uuidStr5 pagC1)).map
        (fun p => (p.1.vendas, p.2.valor_pago, p.2.status)) =
      some ([], 200, ("Quitado")) ∧
    dividasImportedNames.contains ("Venda") = false := by
  constructor
  · with_unfolding_all decide
  · decide

/-- Claim C5 (failing-input evaluation): syncing the batch [valid A (local id
1), invalid B (no items, local id 2), valid C (local id 3)] reports
`created = 2` with only B in the error list, yet the committed state holds
only C's debt: B's session rollback also discarded A's staged insert, so the
created count overstates what was persisted and A is silently lost. -/
theorem C5_sync_rollback_perde_irmaos :
    (sync_dividas dbC5 [syncA, syncB, syncC] (fun i => 100 + i)).2.created = 2 ∧
    (sync_dividas dbC5 [syncA, syncB, syncC] (fun i => 100 + i)).2.skipped = 0 ∧
    ((sync_dividas dbC5 [syncA, syncB, syncC] (fun i => 100 + i)).2.errors.map
      (fun e => e.index)) = [1] ∧
    ((sync_dividas dbC5 [syncA, syncB, syncC] (fun i => 100 + i)).1.dividas.map
      (fun d => d.id_local)) = [some 3] ∧
    (sync_dividas dbC5 [syncA, syncB, syncC] (fun i => 100 + i)).2.status = ("partial") := by
  refine ⟨?_, ?_, ?_, ?_, ?_⟩ <;> with_unfolding_all decide

/-- Claim C7 counterexample: from an empty debt table, create a 200.00 debt
(id 9) and register a single 300.00 payment — the payment is accepted, the
debt reaches the committed state `valor_pago = 300` with `valor_total = 200`,
and `300 ≤ 200 + 0.01` is false: a reachable state where `amount_paid`
exceeds the total far beyond the 0.01 epsilon. -/
theorem C7_excede_total_contraexemplo :
    (exceptOk? (criar_divida dbC7 payC7 9)).map (fun p => (p.2.valor_total, p.2.valor_pago)) =
      some (200, 0) ∧
    (exceptOk? (registrar_pagamento_divida dbC7b uuidStr9 pagC7)).map
        (fun p => (p.2.valor_total, p.2.valor_pago)) = some (200, 300) ∧
    ¬ ((300 : ℚ) ≤ 200 + 1 / 100) := by
  refine ⟨?_, ?_, ?_⟩ <;> with_unfolding_all decide

/-- Claim C7 (amended): across every sequence of payment registrations the
`valor_pago` of a debt present in the store is monotonically non-decreasing
(the 0.01 epsilon is used only to pick Quitado vs Parcial; no upper bound by
`valor_total` is enforced). -/
theorem C7_valor_pago_monotono (db : DB) (ops : List (String × PagamentoDividaIn))
    (u : Nat) (d0 : Divida) (h0 : findDivida db.dividas u = some d0) :
    ∃ d1, findDivida (applyPagamentos db ops).dividas u = some d1 ∧
      d0.valor_pago ≤ d1.valor_pago :=
  applyPagamentos_mono ops db u d0 h0

/-- Claim C7 amended witness: two successive payments (150 then 50) on the
200.00 debt leave its `valor_pago` at or above the initial 0. -/
theorem C7_valor_pago_monotono_witness :
    ∃ d1, findDivida (applyPagamentos dbC7w opsC7).dividas 5 = some d1 ∧
      divC6.valor_pago ≤ d1.valor_pago :=
  C7_valor_pago_monotono dbC7w opsC7 5 divC6 (by with_unfolding_all rfl)

/-- Claim C8 (failing-input evaluation): the client line `rawC8` supplies the
per-line unit cost 7.50 (well above the 1e-9 epsilon), but the frozen cost
recorded on the committed SaleItem is the product's catalog cost 2.00:
pydantic validation of `ItemVendaCreate` drops the undeclared
`preco_custo_unitario` field, so the handler's `getattr` default always wins
and the client-supplied cost can never be used. -/
theorem C8_custo_cliente_descartado :
    rawC8.preco_custo_unit = some (15 / 2) ∧
    eps1e9 < 15 / 2 ∧
    (exceptOk? (criar_venda dbC8 reqC8 77)).map
      (fun p => p.1.itens_venda.map (fun it => it.preco_custo_unit)) = some [2] ∧
    (2 : ℚ) ≠ 15 / 2 := by
  refine ⟨?_, ?_, ?_, ?_⟩ <;> with_unfolding_all decide

/-- Claim C9 counterexample: `prodC9` is explicitly flagged stock-tracked, so
the priority-ordered classifier the claim describes says it is not a service;
the code's classifier never consults the flag and (via the `srv` code prefix)
classifies it as a service, and a committed 2-unit sale of it leaves its
stock at exactly 5 — the claim's classification contract is false on this
product. -/
theorem C9_flag_ignorada_contraexemplo :
    prodC9.stockTracked = some true ∧
    isServicoSpecOrder prodC9 = false ∧
    is_servico prodC9 = true ∧
    (exceptOk? (criar_venda dbC9 reqC9 8)).map
      (fun p => p.1.produtos.map (fun q => q.estoque)) = some [5] := by
  refine ⟨?_, ?_, ?_, ?_⟩ <;> with_unfolding_all decide
